import Mathlib

/-
Shallow embedding of the A/B-testing core of
src/src/ai-engine/services/learning-optimizer.py (class ABTestManager).

Modelling conventions:
- Python floats are modelled as rationals.
- Timestamps are integers counted in whole days (the source only ever uses
  the .days component of datetime differences), so timedelta.days between
  started_at s and now is modelled as now - s.
- Python dicts keyed by strings are association lists.
- Calls into scipy / numpy / statsmodels numeric routines
  (chi2_contingency, ttest_ind on random draws, np.sqrt, ttest_power) are
  abstracted as an oracle record StatOracle; an Option result models the
  possibility that the library call raises (the surrounding try/except of
  the source turns such an exception into the fallback result).
- A Python function that swallows exceptions and returns early is modelled
  as returning Option/none on the exception path.
-/

/-- Test status enumeration (TestStatus, learning-optimizer.py lines 47-52). -/
inductive TestStatus where
  | PLANNING
  | RUNNING
  | COMPLETED
  | PAUSED
  | CANCELLED
deriving DecidableEq

/-- One arm of an experiment (dataclass TestVariant, lines 61-88).
Fields never consulted by the modelled operations (name, description,
created_at, last_updated) are omitted. -/
structure TestVariant where
  variant_id : String
  traffic_allocation : ℚ
  content : List (String × String)
  design : List (String × String)
  visitors : ℕ
  conversions : ℕ
  conversion_rate : ℚ
  bounce_rate : ℚ
  time_on_page : ℚ
  scroll_depth : ℚ
  engagement_score : ℚ
  revenue : ℚ
  revenue_per_visitor : ℚ
deriving DecidableEq

/-- An experiment (dataclass ABTest, lines 91-126). significance_level holds
the numeric value of the SignificanceLevel enum member (0.01 / 0.05 / 0.1).
Fields never consulted by the modelled operations (name, description,
test_type, secondary_metrics, created_by, created_at, insights,
recommendations) are omitted. -/
structure ABTest where
  test_id : String
  status : TestStatus
  primary_metric : String
  significance_level : ℚ
  minimum_sample_size : ℕ
  minimum_duration_days : ℕ
  maximum_duration_days : ℕ
  control_variant : TestVariant
  test_variants : List TestVariant
  winner_variant_id : Option String
  statistical_significance : Bool
  confidence_interval : Option (ℚ × ℚ)
  p_value : Option ℚ
  effect_size : Option ℚ
  started_at : Option ℤ
  ended_at : Option ℤ
deriving DecidableEq

/-- A learning record (dataclass LearningUpdate, lines 129-138). -/
structure LearningUpdate where
  update_id : String
  source_test_id : String
  pattern_type : String
  learned_insights : List String
  performance_improvement : ℚ
  confidence_score : ℚ
  applicable_contexts : List String
  created_at : ℤ
deriving DecidableEq

/-- The visitor_data dict accepted by record_visitor_interaction
(lines 335-411): converted defaults to False via .get; the other keys are
optional. The bounce_rate key is used only for its truthiness. -/
structure VisitorData where
  converted : Bool
  time_on_page : Option ℚ
  bounce_rate : Option Bool
  scroll_depth : Option ℚ
  revenue : Option ℚ
deriving DecidableEq

/-- Oracle abstracting the external numeric library calls.
chi2 takes the four cells of the contingency table (control conversions,
control non-conversions, test conversions, test non-conversions) and
returns the pair (chi-squared statistic, p-value) of
scipy.stats.chi2_contingency, or none when that call raises.
tSample models scipy.stats.ttest_ind applied to the random normal draws of
t_test given (control mean, test mean, control visitors, test visitors),
returning (t statistic, p-value) of the realized draw, or none on failure.
sqrtQ models np.sqrt. powerSample models statsmodels ttest_power given
(effect size, power, alpha), none when it raises. -/
structure StatOracle where
  chi2 : ℕ → ℕ → ℕ → ℕ → Option (ℚ × ℚ)
  tSample : ℚ → ℚ → ℕ → ℕ → Option (ℚ × ℚ)
  sqrtQ : ℚ → ℚ
  powerSample : ℚ → ℚ → ℚ → Option ℚ

/-- In-memory state of the ABTestManager (fields active_tests,
completed_tests, learned_patterns of __init__, lines 149-162). Dicts become
association lists with the most recent binding first. -/
structure ABTestManager where
  active_tests : List (String × ABTest)
  completed_tests : List (String × ABTest)
  learned_patterns : List LearningUpdate
deriving DecidableEq

/-- The fixed manager-level significance threshold: __init__ sets
self.significance_threshold = 0.05 unconditionally (line 158). -/
def significance_threshold : ℚ := 1 / 20

/-- The fixed manager-level minimum detectable effect: __init__ sets
self.minimum_detectable_effect = 0.05 (line 159). -/
def minimum_detectable_effect : ℚ := 1 / 20

/-- Association-list lookup, modelling Python dict indexing / membership. -/
def lookupT {α : Type} (k : String) : List (String × α) → Option α
  | [] => none
  | p :: rest => if p.1 = k then some p.2 else lookupT k rest

/-- Remove every binding of a key, modelling del d[k]. -/
def removeT {α : Type} (k : String) (l : List (String × α)) : List (String × α) :=
  l.filter (fun p => decide (p.1 ≠ k))

/-- Overwriting insertion, modelling d[k] = v. -/
def insertT {α : Type} (l : List (String × α)) (k : String) (v : α) : List (String × α) :=
  (k, v) :: removeT k l

/-- Running average update (_update_running_average, lines 413-417):
if count <= 1 return new_value, else ((avg * (count - 1)) + new_value) / count. -/
def update_running_average (current_avg new_value : ℚ) (count : ℕ) : ℚ :=
  if count ≤ 1 then new_value
  else (current_avg * ((count - 1 : ℕ) : ℚ) + new_value) / (count : ℚ)

/-- Composite engagement score (_calculate_engagement_score, lines 419-436):
0.4 * min(time_on_page/300, 1) + 0.3 * (1 - bounce_rate) + 0.3 * scroll_depth. -/
def calculate_engagement_score (v : TestVariant) : ℚ :=
  let time_score := min (v.time_on_page / 300) 1
  let bounce_score := 1 - v.bounce_rate
  let scroll_score := v.scroll_depth
  time_score * (2 / 5) + bounce_score * (3 / 10) + scroll_score * (3 / 10)

/-- The per-variant update block of record_visitor_interaction
(lines 364-402), applied to the resolved variant: increment visitors; on a
converted event increment conversions and recompute conversion_rate (the
source recomputes conversion_rate only inside the converted branch); fold
the optional engagement metrics into their running averages using the
post-increment visitor count; recompute engagement_score; accumulate
revenue. -/
def update_variant_metrics (v : TestVariant) (d : VisitorData) : TestVariant :=
  let v1 := { v with visitors := v.visitors + 1 }
  let v2 :=
    if d.converted then
      { v1 with conversions := v1.conversions + 1,
                conversion_rate := ((v1.conversions + 1 : ℕ) : ℚ) / (v1.visitors : ℚ) }
    else v1
  let v3 :=
    match d.time_on_page with
    | some x => { v2 with time_on_page := update_running_average v2.time_on_page x v2.visitors }
    | none => v2
  let v4 :=
    match d.bounce_rate with
    | some b =>
        { v3 with bounce_rate :=
            update_running_average v3.bounce_rate (if b then 1 else 0) v3.visitors }
    | none => v3
  let v5 :=
    match d.scroll_depth with
    | some x => { v4 with scroll_depth := update_running_average v4.scroll_depth x v4.visitors }
    | none => v4
  let v6 := { v5 with engagement_score := calculate_engagement_score v5 }
  match d.revenue with
  | some r =>
      { v6 with revenue := v6.revenue + r,
                revenue_per_visitor := (v6.revenue + r) / (v6.visitors : ℚ) }
  | none => v6

/-- Numeric attribute access getattr(variant, metric, 0) as used by the
t-test branch and the learning step (lines 497-498, 562-563, 752-753). -/
def metric_value (v : TestVariant) : String → ℚ
  | "traffic_allocation" => v.traffic_allocation
  | "visitors" => (v.visitors : ℚ)
  | "conversions" => (v.conversions : ℚ)
  | "conversion_rate" => v.conversion_rate
  | "bounce_rate" => v.bounce_rate
  | "time_on_page" => v.time_on_page
  | "scroll_depth" => v.scroll_depth
  | "engagement_score" => v.engagement_score
  | "revenue" => v.revenue
  | "revenue_per_visitor" => v.revenue_per_visitor
  | _ => 0

/-- Folding the running-mean update over a sequence of metric values the way
record_visitor_interaction feeds it on a fresh variant: the i-th value
arrives with count i (the post-increment visitor count). -/
def fold_running_average (vs : List ℚ) : ℚ :=
  (vs.foldl (fun acc x => (update_running_average acc.1 x (acc.2 + 1), acc.2 + 1))
    ((0 : ℚ), (0 : ℕ))).1

/-- Result dict of the significance tests. The fallbacks of the source
return only the significant and p_value keys; the later .get accesses on
the missing keys then yield None (confidence_interval) and 0.0
(effect_size), which is why the remaining fields are Options defaulting to
none. -/
structure SigResult where
  significant : Bool
  p_value : ℚ
  effect_size : Option ℚ := none
  confidence_interval : Option (ℚ × ℚ) := none
  test_statistic : Option ℚ := none
deriving DecidableEq

/-- Chi-square test for conversion rates (_chi_square_test, lines 511-554):
builds the contingency table from conversions / non-conversions, obtains
(chi2, p) from scipy, declares significance when p is below the
manager-level significance_threshold (line 545), computes Cramers V and the
Wald interval for the rate difference from the stored conversion_rate
fields. A raised library call (oracle none) is caught by the except branch
and yields the {significant: False, p_value: 1.0} fallback. -/
def chi_square_test (o : StatOracle) (control test_variant : TestVariant) : SigResult :=
  match o.chi2 control.conversions (control.visitors - control.conversions)
      test_variant.conversions (test_variant.visitors - test_variant.conversions) with
  | none => { significant := false, p_value := 1 }
  | some (chi2, p_value) =>
    let n : ℕ := control.visitors + test_variant.visitors
    let effect_size := o.sqrtQ (chi2 / (n : ℚ))
    let p1 := control.conversion_rate
    let p2 := test_variant.conversion_rate
    let n1 : ℚ := (control.visitors : ℚ)
    let n2 : ℚ := (test_variant.visitors : ℚ)
    let diff := p2 - p1
    let se := o.sqrtQ (p1 * (1 - p1) / n1 + p2 * (1 - p2) / n2)
    { significant := decide (p_value < significance_threshold),
      p_value := p_value,
      effect_size := some effect_size,
      confidence_interval := some (diff - (49 / 25) * se, diff + (49 / 25) * se),
      test_statistic := some chi2 }

/-- T-test for continuous metrics (_t_test, lines 556-599): the means come
from getattr on the metric name, the standard deviations are fixed at 20
percent of the mean, the p-value of ttest_ind on the synthetic random
draws is supplied by the oracle, and significance again compares against
the manager-level significance_threshold (line 590). -/
def t_test (o : StatOracle) (control test_variant : TestVariant) (metric : String) : SigResult :=
  let control_mean := metric_value control metric
  let test_mean := metric_value test_variant metric
  match o.tSample control_mean test_mean control.visitors test_variant.visitors with
  | none => { significant := false, p_value := 1 }
  | some (t_statistic, p_value) =>
    let control_std := control_mean * (1 / 5)
    let test_std := test_mean * (1 / 5)
    let pooled_std := o.sqrtQ
      ((((control.visitors : ℚ) - 1) * control_std ^ 2 + ((test_variant.visitors : ℚ) - 1) * test_std ^ 2)
        / ((control.visitors : ℚ) + (test_variant.visitors : ℚ) - 2))
    let effect_size := (test_mean - control_mean) / pooled_std
    let se := pooled_std * o.sqrtQ (1 / (control.visitors : ℚ) + 1 / (test_variant.visitors : ℚ))
    let diff := test_mean - control_mean
    { significant := decide (p_value < significance_threshold),
      p_value := p_value,
      effect_size := some |effect_size|,
      confidence_interval := some (diff - (49 / 25) * se, diff + (49 / 25) * se),
      test_statistic := some t_statistic }

/-- Statistical significance analysis (_analyze_statistical_significance,
lines 465-509). With a number of treatment variants different from one it
returns the {significant: False, p_value: 1.0} dict before touching the
test object. Otherwise it dispatches on the primary metric name, writes
p_value, statistical_significance, confidence_interval and effect_size
back onto the test, and, only when significant, sets winner_variant_id to
the arm with the strictly greater primary-metric value (control on ties).
Returns the result dict together with the updated test. -/
def analyze_statistical_significance (o : StatOracle) (t : ABTest) : SigResult × ABTest :=
  match t.test_variants with
  | [tv] =>
    let control := t.control_variant
    let result :=
      if t.primary_metric = "conversion_rate" then chi_square_test o control tv
      else t_test o control tv t.primary_metric
    let t1 := { t with p_value := some result.p_value,
                       statistical_significance := result.significant,
                       confidence_interval := result.confidence_interval,
                       effect_size := some ((result.effect_size).getD 0) }
    let t2 :=
      if result.significant then
        if t.primary_metric = "conversion_rate" then
          if control.conversion_rate < tv.conversion_rate then
            { t1 with winner_variant_id := some tv.variant_id }
          else
            { t1 with winner_variant_id := some control.variant_id }
        else
          if metric_value control t.primary_metric < metric_value tv t.primary_metric then
            { t1 with winner_variant_id := some tv.variant_id }
          else
            { t1 with winner_variant_id := some control.variant_id }
      else t1
    (result, t2)
  | _ => ({ significant := false, p_value := 1 }, t)

/-- Total visitors over all arms as summed by _check_early_stopping
(lines 442-444) and get_test_status (lines 981-983). -/
def total_visitors (t : ABTest) : ℕ :=
  t.control_variant.visitors + (t.test_variants.map TestVariant.visitors).sum

/-- The minimum-duration guard of _check_early_stopping (lines 450-453):
only evaluated when started_at is set; days_running is the day difference
between now and started_at. -/
def early_by_duration (t : ABTest) (now : ℤ) : Bool :=
  match t.started_at with
  | some s => decide (now - s < (t.minimum_duration_days : ℤ))
  | none => false

/-- Early-stopping check (_check_early_stopping, lines 438-463): returns
unchanged state when total visitors are below minimum_sample_size or the
minimum duration has not elapsed; otherwise runs the significance analysis
and reports whether the test should be stopped (the source then calls
_stop_test on the registry). The maximum_duration_days field is never
consulted anywhere in this function or elsewhere in the source. -/
def check_early_stopping (o : StatOracle) (now : ℤ) (t : ABTest) : ABTest × Bool :=
  if total_visitors t < t.minimum_sample_size then (t, false)
  else if early_by_duration t now then (t, false)
  else
    let r := analyze_statistical_significance o t
    (r.2, r.1.significant)

/-- Sample size computation (_calculate_sample_size, lines 256-280): on a
successful ttest_power call, int(sample / baseline_rate) floored at 1000;
when the power call raises, the fallback max(2000, int(16 * (1/effect)^2)).
The int() truncation equals the floor on these nonnegative values. -/
def calculate_sample_size (o : StatOracle) (alpha power effect_size baseline_rate : ℚ) : ℕ :=
  match o.powerSample effect_size power alpha with
  | some s => max (s / baseline_rate).floor.toNat 1000
  | none => max 2000 (16 * (1 / effect_size) ^ 2).floor.toNat

/-- Experiment creation (create_ab_test, lines 205-254): computes the
sample size with power 0.8 and the manager minimum detectable effect,
builds the ABTest in PLANNING with minimum_duration_days 7 and
maximum_duration_days 30, stores it in active_tests and returns its id.
No configuration validation of any kind is performed here. The md5-based
id generation (line 217) is modelled by the test_id argument. -/
def create_ab_test (o : StatOracle) (test_id : String) (control_variant : TestVariant)
    (test_variants : List TestVariant) (primary_metric : String) (significance_level : ℚ)
    (m : ABTestManager) : String × ABTestManager :=
  let sample_size := calculate_sample_size o significance_level (4 / 5) minimum_detectable_effect (1 / 10)
  let t : ABTest := {
    test_id := test_id,
    status := TestStatus.PLANNING,
    primary_metric := primary_metric,
    significance_level := significance_level,
    minimum_sample_size := sample_size,
    minimum_duration_days := 7,
    maximum_duration_days := 30,
    control_variant := control_variant,
    test_variants := test_variants,
    winner_variant_id := none,
    statistical_significance := false,
    confidence_interval := none,
    p_value := none,
    effect_size := none,
    started_at := none,
    ended_at := none }
  (test_id, { m with active_tests := insertT m.active_tests test_id t })

/-- Configuration validation (_validate_test_configuration, lines 308-333):
rejects a traffic-allocation sum deviating from 1 by more than 0.01, a
minimum sample size below 100, or a minimum duration below 1 day. Invoked
only by start_test, never by create_ab_test. -/
def validate_test_configuration (t : ABTest) : Bool :=
  let total_allocation :=
    t.control_variant.traffic_allocation + (t.test_variants.map TestVariant.traffic_allocation).sum
  if 1 / 100 < |total_allocation - 1| then false
  else if t.minimum_sample_size < 100 then false
  else if t.minimum_duration_days < 1 then false
  else true

/-- Starting a test (start_test, lines 282-306): requires the id to be
active and in PLANNING and the configuration to validate, then sets
RUNNING and started_at; every failure is caught and surfaces as False. -/
def start_test (now : ℤ) (m : ABTestManager) (test_id : String) : ABTestManager × Bool :=
  match lookupT test_id m.active_tests with
  | none => (m, false)
  | some t =>
    if t.status ≠ TestStatus.PLANNING then (m, false)
    else if validate_test_configuration t = false then (m, false)
    else
      let t1 := { t with status := TestStatus.RUNNING, started_at := some now }
      ({ m with active_tests := insertT m.active_tests test_id t1 }, true)

/-- Winner resolution shared by _generate_test_insights and
_learn_from_test (lines 733-744): the Python truthiness test on
winner_variant_id treats both None and the empty string as no winner; then
the id is matched against the control and the treatment variants. -/
def find_winner_variant (t : ABTest) : Option TestVariant :=
  match t.winner_variant_id with
  | none => none
  | some wid =>
    if wid = "" then none
    else if t.control_variant.variant_id = wid then some t.control_variant
    else t.test_variants.find? (fun v => v.variant_id == wid)

/-- Content diff (_analyze_content_differences, lines 796-806). -/
def analyze_content_differences (control_content winner_content : List (String × String)) :
    List String :=
  winner_content.foldr
    (fun p acc =>
      match lookupT p.1 control_content with
      | none => ("Added content element: " ++ p.1) :: acc
      | some old =>
        if p.2 ≠ old then ("Modified " ++ p.1 ++ ": " ++ old ++ " -> " ++ p.2) :: acc
        else acc)
    []

/-- Design diff (_analyze_design_differences, lines 808-818). -/
def analyze_design_differences (control_design winner_design : List (String × String)) :
    List String :=
  winner_design.foldr
    (fun p acc =>
      match lookupT p.1 control_design with
      | none => ("Added design element: " ++ p.1) :: acc
      | some old =>
        if p.2 ≠ old then ("Modified " ++ p.1 ++ ": " ++ old ++ " -> " ++ p.2) :: acc
        else acc)
    []

/-- Learning extraction on completion (_learn_from_test, lines 726-794).
Returns the LearningUpdate to append, or none when the function returns
early or its body raises into the enclosing except handler:
- not statistically significant (line 729), or no resolvable winner
  (line 743): early return;
- primary metric conversion_rate with control conversion_rate 0: the
  improvement computation (line 749) raises ZeroDivisionError;
- p_value still None: the confidence_score computation 1.0 - p_value
  (line 783) raises TypeError.
For other metrics the improvement guards against a nonpositive control
value (lines 752-757). confidence_score = 1 - p_value. -/
def learn_from_test (now : ℤ) (t : ABTest) : Option LearningUpdate :=
  if t.statistical_significance = false then none
  else
    match find_winner_variant t with
    | none => none
    | some winner_variant =>
      let control := t.control_variant
      let improvement? : Option ℚ :=
        if t.primary_metric = "conversion_rate" then
          if control.conversion_rate = 0 then none
          else some ((winner_variant.conversion_rate - control.conversion_rate)
            / control.conversion_rate)
        else
          let control_value := metric_value control t.primary_metric
          let winner_value := metric_value winner_variant t.primary_metric
          some (if 0 < control_value then (winner_value - control_value) / control_value else 0)
      match improvement?, t.p_value with
      | some improvement, some pv =>
        let content_insights :=
          if winner_variant.content ≠ control.content then
            analyze_content_differences control.content winner_variant.content
          else []
        let design_insights :=
          if winner_variant.design ≠ control.design then
            analyze_design_differences control.design winner_variant.design
          else []
        some { update_id := "learn_" ++ t.test_id,
               source_test_id := t.test_id,
               pattern_type := "test_result",
               learned_insights := content_insights ++ design_insights,
               performance_improvement := improvement,
               confidence_score := 1 - pv,
               applicable_contexts := [],
               created_at := now }
      | _, _ => none

/-- Stopping a test (_stop_test, lines 601-626): when the id is active, set
COMPLETED and ended_at, run the learning extraction (appending its record,
if any, to learned_patterns), move the test from active_tests to
completed_tests. An unknown id returns the state unchanged.
The insight-string generation of _generate_test_insights only writes the
omitted insights/recommendations fields and is not modelled. -/
def stop_test (now : ℤ) (m : ABTestManager) (test_id : String) : ABTestManager :=
  match lookupT test_id m.active_tests with
  | none => m
  | some t =>
    let t1 := { t with status := TestStatus.COMPLETED, ended_at := some now }
    let record? := learn_from_test now t1
    { active_tests := removeT test_id m.active_tests,
      completed_tests := insertT m.completed_tests test_id t1,
      learned_patterns := m.learned_patterns ++ record?.toList }

/-- Which arm an interaction addresses (the variant resolution of
record_visitor_interaction, lines 352-362). -/
inductive VariantRole where
  | control
  | treatment (i : ℕ)
deriving DecidableEq

/-- Resolve a variant id against the control and the treatment variants. -/
def find_variant_role (t : ABTest) (variant_id : String) : Option VariantRole :=
  if t.control_variant.variant_id = variant_id then some VariantRole.control
  else (t.test_variants.findIdx? (fun v => v.variant_id == variant_id)).map VariantRole.treatment

/-- Replace the i-th treatment variant. -/
def modify_treatment (f : TestVariant → TestVariant) : ℕ → List TestVariant → List TestVariant
  | _, [] => []
  | 0, v :: rest => f v :: rest
  | n + 1, v :: rest => v :: modify_treatment f n rest

/-- Apply an update function to the arm a role designates. -/
def update_variant_at (t : ABTest) (role : VariantRole) (f : TestVariant → TestVariant) : ABTest :=
  match role with
  | VariantRole.control => { t with control_variant := f t.control_variant }
  | VariantRole.treatment i => { t with test_variants := modify_treatment f i t.test_variants }

/-- Recording a visitor interaction (record_visitor_interaction,
lines 335-411): an unknown experiment id, a status different from RUNNING,
and an unknown variant id all return the plain boolean False with the
state unchanged — there is no differentiated error value in the source.
On success the resolved variant is updated, the early-stopping check runs,
and, when it reports significance, the test is stopped; the call returns
True. -/
def record_visitor_interaction (o : StatOracle) (now : ℤ) (m : ABTestManager)
    (test_id variant_id : String) (visitor_data : VisitorData) : ABTestManager × Bool :=
  match lookupT test_id m.active_tests with
  | none => (m, false)
  | some t =>
    if t.status ≠ TestStatus.RUNNING then (m, false)
    else
      match find_variant_role t variant_id with
      | none => (m, false)
      | some role =>
        let t1 := update_variant_at t role (fun v => update_variant_metrics v visitor_data)
        let checked := check_early_stopping o now t1
        let m1 := { m with active_tests := insertT m.active_tests test_id checked.1 }
        if checked.2 then (stop_test now m1 test_id, true) else (m1, true)

/-- The test-resolution step of get_test_status (lines 968-978): the id is
looked up in active_tests first, then in completed_tests; an unknown id
yields None (the source then builds the status dict from the resolved
test). -/
def get_test_status_lookup (m : ABTestManager) (test_id : String) : Option ABTest :=
  match lookupT test_id m.active_tests with
  | some t => some t
  | none => lookupT test_id m.completed_tests

/-- Oracle under which every external numeric call raises, exercising the
fallback branches. -/
def trivOracle : StatOracle :=
  { chi2 := fun _ _ _ _ => none,
    tSample := fun _ _ _ _ => none,
    sqrtQ := fun _ => 0,
    powerSample := fun _ _ _ => none }

/-- A fresh variant with every counter at its dataclass default. -/
def freshVariant (id : String) (alloc : ℚ) : TestVariant :=
  { variant_id := id, traffic_allocation := alloc, content := [], design := [],
    visitors := 0, conversions := 0, conversion_rate := 0, bounce_rate := 0,
    time_on_page := 0, scroll_depth := 0, engagement_score := 0,
    revenue := 0, revenue_per_visitor := 0 }

/-- A visitor event carrying only converted = False. -/
def emptyVisit : VisitorData :=
  { converted := false, time_on_page := none, bounce_rate := none,
    scroll_depth := none, revenue := none }

/-- A visitor event carrying only converted = True. -/
def convertedVisit : VisitorData :=
  { converted := true, time_on_page := none, bounce_rate := none,
    scroll_depth := none, revenue := none }

/-- The state of a fresh variant after a converted event followed by a
non-converted event. -/
def c1_failing_variant : TestVariant :=
  update_variant_metrics (update_variant_metrics (freshVariant "c" (1 / 2)) convertedVisit)
    emptyVisit

/-- C1: evaluation of the recording update at the failing input. A fresh
variant receives a converted event and then a non-converted event: the
second call increments visitors to 2 while conversions stays 1, but the
source recomputes conversion_rate only inside the converted branch, so
conversion_rate remains 1 and differs from conversions / visitors = 1/2,
contradicting the claimed invariant for calls with converted = false. -/
theorem conversion_rate_stale_after_nonconverted_event :
    c1_failing_variant.visitors = 2 ∧ c1_failing_variant.conversions = 1 ∧
    c1_failing_variant.conversion_rate = 1 ∧
    c1_failing_variant.conversion_rate ≠
      (c1_failing_variant.conversions : ℚ) / (c1_failing_variant.visitors : ℚ) := by
  refine ⟨rfl, rfl, ?_, ?_⟩ <;>
    norm_num [c1_failing_variant, update_variant_metrics, freshVariant, convertedVisit,
      emptyVisit, calculate_engagement_score, update_running_average]

/-- Auxiliary for the running-mean property: from an accumulator holding
mean s / n over n values, folding further values keeps the accumulator at
the running arithmetic mean. -/
theorem fold_running_average_aux (rest : List ℚ) :
    ∀ (n : ℕ) (s : ℚ), 1 ≤ n →
      (rest.foldl (fun acc x => (update_running_average acc.1 x (acc.2 + 1), acc.2 + 1))
        (s / ((n : ℕ) : ℚ), n)).1 = (s + rest.sum) / (((n : ℕ) : ℚ) + (rest.length : ℚ)) := by
  induction rest with
  | nil => intro n s hn; simp
  | cons x rest ih =>
    intro n s hn
    have hn0 : ((n : ℕ) : ℚ) ≠ 0 := Nat.cast_ne_zero.mpr (by omega)
    have hstep : update_running_average (s / ((n : ℕ) : ℚ)) x (n + 1)
        = (s + x) / (((n + 1 : ℕ) : ℚ)) := by
      unfold update_running_average
      rw [if_neg (by omega)]
      have h1 : (n + 1 - 1 : ℕ) = n := by omega
      rw [h1, div_mul_cancel₀ _ hn0]
    simp only [List.foldl_cons]
    rw [hstep, ih (n + 1) (s + x) (by omega)]
    simp only [List.sum_cons, List.length_cons]
    push_cast
    ring_nf

/-- C8: for every nonempty sequence of metric values, folding the running
mean update of _update_running_average over the sequence, feeding the i-th
value with count i exactly as record_visitor_interaction does, yields the
arithmetic mean of the sequence. -/
theorem fold_running_average_eq_mean (vs : List ℚ) (h : vs ≠ []) :
    fold_running_average vs = vs.sum / (vs.length : ℚ) := by
  cases vs with
  | nil => exact absurd rfl h
  | cons x rest =>
    unfold fold_running_average
    show (rest.foldl (fun acc x => (update_running_average acc.1 x (acc.2 + 1), acc.2 + 1))
        (update_running_average 0 x (0 + 1), 0 + 1)).1
      = (x :: rest).sum / (((x :: rest).length : ℕ) : ℚ)
    have h1 : update_running_average 0 x (0 + 1) = x / (((1 : ℕ) : ℕ) : ℚ) := by
      unfold update_running_average
      norm_num
    rw [h1]
    calc (rest.foldl (fun acc x => (update_running_average acc.1 x (acc.2 + 1), acc.2 + 1))
          (x / (((1 : ℕ) : ℕ) : ℚ), 0 + 1)).1
        = (x + rest.sum) / (((1 : ℕ) : ℚ) + (rest.length : ℚ)) :=
          fold_running_average_aux rest 1 x le_rfl
      _ = (x :: rest).sum / (((x :: rest).length : ℕ) : ℚ) := by
          simp only [List.sum_cons, List.length_cons]
          push_cast
          ring_nf

/-- Witness for the running-mean theorem at the sequence [1, 4, 7]. -/
theorem fold_running_average_eq_mean_witness :
    ([(1 : ℚ), 4, 7] ≠ []) ∧ fold_running_average [(1 : ℚ), 4, 7] = 4 := by
  refine ⟨by simp, ?_⟩
  have h := fold_running_average_eq_mean [(1 : ℚ), 4, 7] (by simp)
  rw [h]
  norm_num

/-- C6: the early-stopping check of a started experiment returns the state
unchanged and does not stop while either precondition fails, for every
oracle, in particular also for an oracle whose data would count as
significant: the significance analysis is not reached. -/
theorem early_stop_requires_preconditions (o : StatOracle) (now : ℤ) (t : ABTest) (s : ℤ)
    (hs : t.started_at = some s)
    (h : total_visitors t < t.minimum_sample_size ∨ now - s < (t.minimum_duration_days : ℤ)) :
    check_early_stopping o now t = (t, false) := by
  unfold check_early_stopping
  rcases h with h | h
  · rw [if_pos h]
  · by_cases hv : total_visitors t < t.minimum_sample_size
    · rw [if_pos hv]
    · rw [if_neg hv, if_pos]
      unfold early_by_duration
      rw [hs]
      exact decide_eq_true h

/-- A running experiment with too few visitors for its sample-size floor. -/
def c6_small_test : ABTest :=
  { test_id := "t6", status := TestStatus.RUNNING, primary_metric := "conversion_rate",
    significance_level := 1 / 20, minimum_sample_size := 1000, minimum_duration_days := 7,
    maximum_duration_days := 30,
    control_variant := { freshVariant "c" (1 / 2) with visitors := 10, conversions := 5 },
    test_variants := [{ freshVariant "t1" (1 / 2) with visitors := 10, conversions := 9 }],
    winner_variant_id := none, statistical_significance := false, confidence_interval := none,
    p_value := none, effect_size := none, started_at := some 0, ended_at := none }

/-- An oracle reporting an extremely significant chi-square result. -/
def sigOracle : StatOracle :=
  { chi2 := fun _ _ _ _ => some (30, 1 / 100000),
    tSample := fun _ _ _ _ => some (5, 1 / 100000),
    sqrtQ := fun _ => 0,
    powerSample := fun _ _ _ => none }

/-- Witness: with only 20 of 1000 required visitors, the check changes
nothing and does not stop even under an oracle reporting significance. -/
theorem early_stop_requires_preconditions_witness :
    check_early_stopping sigOracle 50 c6_small_test = (c6_small_test, false) :=
  early_stop_requires_preconditions sigOracle 50 c6_small_test 0 rfl
    (Or.inl (by norm_num [total_visitors, c6_small_test, freshVariant]))

/-- C10: with a number of treatment variants different from one, the
significance analysis returns the fallback dict (significant false,
p-value 1.0, no other keys) and the test object entirely unchanged,
leaving every statistical field as it was, instead of raising. -/
theorem analyze_non_two_arm_unchanged (o : StatOracle) (t : ABTest)
    (h : t.test_variants.length ≠ 1) :
    analyze_statistical_significance o t = ({ significant := false, p_value := 1 }, t) := by
  rcases hl : t.test_variants with _ | ⟨tv, _ | ⟨tv2, rest⟩⟩
  · simp [analyze_statistical_significance, hl]
  · rw [hl] at h
    simp at h
  · simp [analyze_statistical_significance, hl]

/-- An experiment with no treatment variant at all. -/
def c10_zero_treatment_test : ABTest :=
  { test_id := "t10", status := TestStatus.RUNNING, primary_metric := "conversion_rate",
    significance_level := 1 / 20, minimum_sample_size := 1000, minimum_duration_days := 7,
    maximum_duration_days := 30, control_variant := freshVariant "c" 1,
    test_variants := [], winner_variant_id := none, statistical_significance := false,
    confidence_interval := none, p_value := none, effect_size := none,
    started_at := some 0, ended_at := none }

/-- Witness: the analysis of a zero-treatment experiment returns the
fallback and the unchanged test. -/
theorem analyze_non_two_arm_unchanged_witness :
    analyze_statistical_significance trivOracle c10_zero_treatment_test
      = ({ significant := false, p_value := 1 }, c10_zero_treatment_test) :=
  analyze_non_two_arm_unchanged trivOracle c10_zero_treatment_test
    (by simp [c10_zero_treatment_test])

/-- The chi-square branch declares significance exactly when its p-value is
below the manager-level threshold (also on the exception fallback, whose
p-value 1 is not below the threshold). -/
theorem chi_square_test_significant_iff (o : StatOracle) (c v : TestVariant) :
    (chi_square_test o c v).significant = true ↔
      (chi_square_test o c v).p_value < significance_threshold := by
  unfold chi_square_test
  rcases h : o.chi2 c.conversions (c.visitors - c.conversions) v.conversions
      (v.visitors - v.conversions) with _ | ⟨chi2, p⟩
  · simp [significance_threshold]
    norm_num
  · simp

/-- The t-test branch declares significance exactly when its p-value is
below the manager-level threshold (also on the exception fallback). -/
theorem t_test_significant_iff (o : StatOracle) (c v : TestVariant) (metric : String) :
    (t_test o c v metric).significant = true ↔
      (t_test o c v metric).p_value < significance_threshold := by
  rcases h : o.tSample (metric_value c metric) (metric_value v metric) c.visitors v.visitors
    with _ | ⟨ts, p⟩
  · simp only [t_test, h]
    norm_num [significance_threshold]
  · simp only [t_test, h]
    simp

/-- Getattr on the conversion_rate name is the conversion_rate field. -/
@[simp] theorem metric_value_conversion_rate (v : TestVariant) :
    metric_value v "conversion_rate" = v.conversion_rate := rfl

/-- C3 (amended): for a single-treatment experiment the analysis declares
significance exactly when its p-value is below the fixed manager-level
significance_threshold of 0.05 — not the per-experiment significance_level;
a non-significant result leaves winner_variant_id unchanged, and a
significant result sets it to the arm with the strictly greater
primary-metric value, the control on ties. -/
theorem analyze_threshold_and_winner (o : StatOracle) (t : ABTest) (tv : TestVariant)
    (hl : t.test_variants = [tv]) :
    ((analyze_statistical_significance o t).1.significant = true ↔
      (analyze_statistical_significance o t).1.p_value < significance_threshold)
    ∧ ((analyze_statistical_significance o t).1.significant = false →
        (analyze_statistical_significance o t).2.winner_variant_id = t.winner_variant_id)
    ∧ ((analyze_statistical_significance o t).1.significant = true →
        (analyze_statistical_significance o t).2.winner_variant_id =
          some (if metric_value t.control_variant t.primary_metric
                  < metric_value tv t.primary_metric
                then tv.variant_id
                else t.control_variant.variant_id)) := by
  obtain ⟨tid, st, pm, sl, mss, mind, maxd, cv, tvs, wid, ssig, ci, pv, es, sa, ea⟩ := t
  dsimp only at hl ⊢
  subst hl
  by_cases hpm : pm = "conversion_rate"
  · subst hpm
    simp only [analyze_statistical_significance, eq_self_iff_true, if_true,
      metric_value_conversion_rate]
    refine ⟨chi_square_test_significant_iff o cv tv, ?_, ?_⟩
    · intro hsig
      simp [hsig]
    · intro hsig
      by_cases hw : cv.conversion_rate < tv.conversion_rate
      · simp [hsig, hw]
      · simp [hsig, hw]
  · simp only [analyze_statistical_significance, if_neg hpm]
    refine ⟨t_test_significant_iff o cv tv pm, ?_, ?_⟩
    · intro hsig
      simp [hsig]
    · intro hsig
      simp only [hsig, if_true, if_neg hpm]
      by_cases hw : metric_value cv pm < metric_value tv pm
      · simp [hw]
      · simp [hw]

/-- Control arm with a 10 percent conversion rate over 1000 visitors. -/
def c3_control : TestVariant :=
  { freshVariant "c" (1 / 2) with
    visitors := 1000, conversions := 100, conversion_rate := 1 / 10 }

/-- Treatment arm with a 13.5 percent conversion rate over 1000 visitors. -/
def c3_treatment : TestVariant :=
  { freshVariant "t1" (1 / 2) with
    visitors := 1000, conversions := 135, conversion_rate := 27 / 200 }

/-- An experiment configured with the strict significance level 0.01
(SignificanceLevel.HIGH). -/
def c3_example_test : ABTest :=
  { test_id := "t3", status := TestStatus.RUNNING, primary_metric := "conversion_rate",
    significance_level := 1 / 100, minimum_sample_size := 1000, minimum_duration_days := 7,
    maximum_duration_days := 30, control_variant := c3_control,
    test_variants := [c3_treatment], winner_variant_id := none,
    statistical_significance := false, confidence_interval := none, p_value := none,
    effect_size := none, started_at := some 0, ended_at := none }

/-- Oracle reporting a chi-square p-value of 0.03 for the observed table. -/
def c3_oracle : StatOracle :=
  { chi2 := fun _ _ _ _ => some (523 / 100, 3 / 100),
    tSample := fun _ _ _ _ => none,
    sqrtQ := fun _ => 0,
    powerSample := fun _ _ _ => none }

/-- C3 counterexample: an experiment configured with significance_level
0.01 whose chi-square p-value is 0.03 is declared significant by the
source, because _chi_square_test compares against the fixed manager-level
threshold 0.05 (line 545) and never reads the configured level; the claim
predicts non-significance since 0.03 is not below 0.01. -/
theorem analyze_ignores_configured_level :
    (analyze_statistical_significance c3_oracle c3_example_test).1.significant = true
    ∧ ¬ ((analyze_statistical_significance c3_oracle c3_example_test).1.p_value
        < c3_example_test.significance_level) := by
  constructor <;>
    norm_num [analyze_statistical_significance, chi_square_test, c3_example_test,
      c3_oracle, c3_control, c3_treatment, significance_threshold]

/-- Witness: the threshold characterization applied to the concrete
two-arm experiment. -/
theorem analyze_threshold_and_winner_witness :
    (analyze_statistical_significance c3_oracle c3_example_test).1.significant = true ↔
      (analyze_statistical_significance c3_oracle c3_example_test).1.p_value
        < significance_threshold :=
  (analyze_threshold_and_winner c3_oracle c3_example_test c3_treatment rfl).1

/-- A running experiment far past its configured maximum duration whose
accumulated data is not significant: control 100 of 1000, treatment 110 of
1000 converted, both preconditions of the early-stopping check satisfied. -/
def c2_overdue_test : ABTest :=
  { test_id := "t2", status := TestStatus.RUNNING, primary_metric := "conversion_rate",
    significance_level := 1 / 20, minimum_sample_size := 100, minimum_duration_days := 7,
    maximum_duration_days := 30,
    control_variant := { freshVariant "c" (1 / 2) with
      visitors := 1000, conversions := 100, conversion_rate := 1 / 10 },
    test_variants := [{ freshVariant "t1" (1 / 2) with
      visitors := 1000, conversions := 110, conversion_rate := 11 / 100 }],
    winner_variant_id := none, statistical_significance := false, confidence_interval := none,
    p_value := none, effect_size := none, started_at := some 0, ended_at := none }

/-- Oracle reporting a clearly non-significant chi-square p-value. -/
def c2_oracle : StatOracle :=
  { chi2 := fun _ _ _ _ => some (1 / 2, 1 / 2),
    tSample := fun _ _ _ _ => none,
    sqrtQ := fun _ => 0,
    powerSample := fun _ _ _ => none }

/-- C2: evaluation of the early-stopping check at the failing input. The
experiment started 100 days ago, far beyond maximum_duration_days = 30,
both significance preconditions hold, and the analysis is not significant;
the check reports no stop and leaves the status RUNNING, because
_check_early_stopping contains no maximum-duration branch at all — the
claimed force-stop never happens. -/
theorem no_forced_stop_at_maximum_duration :
    ((c2_overdue_test.maximum_duration_days : ℤ) ≤ 100 - 0
      ∧ c2_overdue_test.started_at = some 0)
    ∧ (check_early_stopping c2_oracle 100 c2_overdue_test).2 = false
    ∧ (check_early_stopping c2_oracle 100 c2_overdue_test).1.status = TestStatus.RUNNING := by
  refine ⟨⟨by norm_num [c2_overdue_test], rfl⟩, ?_, ?_⟩ <;>
    norm_num [check_early_stopping, total_visitors, early_by_duration,
      analyze_statistical_significance, chi_square_test, c2_overdue_test, c2_oracle,
      significance_threshold, freshVariant]

/-- A manager holding no test at all. -/
def emptyManager : ABTestManager :=
  { active_tests := [], completed_tests := [], learned_patterns := [] }

/-- C5 (amended): every failure mode of record_visitor_interaction — an
unknown experiment id, a status different from RUNNING, and an unknown
variant id — returns the same bare boolean False with the manager state
unchanged; the source has no differentiated NotFoundError or
InvalidStateError result. -/
theorem record_interaction_failures_return_false :
    (∀ o now m test_id variant_id d, lookupT test_id m.active_tests = none →
      record_visitor_interaction o now m test_id variant_id d = (m, false))
    ∧ (∀ o now m test_id variant_id d t, lookupT test_id m.active_tests = some t →
        t.status ≠ TestStatus.RUNNING →
        record_visitor_interaction o now m test_id variant_id d = (m, false))
    ∧ (∀ o now m test_id variant_id d t, lookupT test_id m.active_tests = some t →
        find_variant_role t variant_id = none →
        record_visitor_interaction o now m test_id variant_id d = (m, false)) := by
  refine ⟨?_, ?_, ?_⟩
  · intro o now m tid vid d h
    simp [record_visitor_interaction, h]
  · intro o now m tid vid d t h hst
    simp [record_visitor_interaction, h, hst]
  · intro o now m tid vid d t h hrole
    by_cases hst : t.status = TestStatus.RUNNING
    · simp [record_visitor_interaction, h, hst, hrole]
    · simp [record_visitor_interaction, h, hst]

/-- An experiment still in PLANNING with known variant ids c and t1. -/
def c5_planning_test : ABTest :=
  { test_id := "p5", status := TestStatus.PLANNING, primary_metric := "conversion_rate",
    significance_level := 1 / 20, minimum_sample_size := 1000, minimum_duration_days := 7,
    maximum_duration_days := 30, control_variant := freshVariant "c" (1 / 2),
    test_variants := [freshVariant "t1" (1 / 2)], winner_variant_id := none,
    statistical_significance := false, confidence_interval := none, p_value := none,
    effect_size := none, started_at := none, ended_at := none }

/-- A RUNNING experiment with known variant ids c and t1. -/
def c5_running_test : ABTest :=
  { c5_planning_test with test_id := "r5", status := TestStatus.RUNNING, started_at := some 0 }

/-- A manager holding the planning test under p5 and the running test
under r5. -/
def c5_manager : ABTestManager :=
  { active_tests := [("p5", c5_planning_test), ("r5", c5_running_test)],
    completed_tests := [], learned_patterns := [] }

/-- C5 counterexample: the three failure cases evaluated concretely — an
unknown experiment id, a known experiment that is not RUNNING, and a known
RUNNING experiment with an unknown variant id — all return the identical
undifferentiated (state, false) result, where the claim demands distinct
NotFoundError and InvalidStateError results. -/
theorem record_interaction_no_error_values :
    record_visitor_interaction trivOracle 0 c5_manager "missing" "c" emptyVisit
      = (c5_manager, false)
    ∧ record_visitor_interaction trivOracle 0 c5_manager "p5" "c" emptyVisit
      = (c5_manager, false)
    ∧ record_visitor_interaction trivOracle 0 c5_manager "r5" "nope" emptyVisit
      = (c5_manager, false) := by
  refine ⟨?_, ?_, ?_⟩ <;>
    simp [record_visitor_interaction, c5_manager, c5_planning_test, c5_running_test,
      lookupT, find_variant_role, freshVariant]

/-- Witness: the unknown-experiment case on the empty manager. -/
theorem record_interaction_failures_return_false_witness :
    record_visitor_interaction trivOracle 0 emptyManager "missing" "v" emptyVisit
      = (emptyManager, false) :=
  record_interaction_failures_return_false.1 trivOracle 0 emptyManager "missing" "v"
    emptyVisit rfl

/-- A control arm asking for 90 percent of the traffic. -/
def c4_bad_control : TestVariant := freshVariant "c" (9 / 10)

/-- A treatment arm also asking for 90 percent of the traffic. -/
def c4_bad_treatment : TestVariant := freshVariant "t1" (9 / 10)

/-- C4 counterexample: creating a test whose traffic allocations sum to
1.8, far outside [0.99, 1.01], succeeds: no ValidationError is raised, the
experiment is stored in the active map with status PLANNING and its id is
returned — create_ab_test performs no validation at all. -/
theorem create_stores_invalid_allocation :
    1 / 100 < |c4_bad_control.traffic_allocation
      + ([c4_bad_treatment].map TestVariant.traffic_allocation).sum - 1|
    ∧ (create_ab_test trivOracle "bad" c4_bad_control [c4_bad_treatment] "conversion_rate"
        (1 / 20) emptyManager).1 = "bad"
    ∧ (lookupT "bad" (create_ab_test trivOracle "bad" c4_bad_control [c4_bad_treatment]
        "conversion_rate" (1 / 20) emptyManager).2.active_tests).map ABTest.status
      = some TestStatus.PLANNING := by
  refine ⟨?_, rfl, ?_⟩
  · norm_num [c4_bad_control, c4_bad_treatment, freshVariant]
    rw [abs_of_pos] <;> norm_num
  · simp [create_ab_test, insertT, removeT, lookupT, emptyManager]

/-- C4 (amended): create_ab_test never validates and never fails — for
every configuration, valid or not, it returns the generated id and stores
the experiment with status PLANNING in the active map, touching nothing
else; the traffic-allocation constraint is enforced only by
_validate_test_configuration, which start_test invokes and which rejects
an allocation sum deviating from 1 by more than 0.01. -/
theorem create_stores_planning_unvalidated :
    (∀ o test_id cv tvs pm sl m,
      (create_ab_test o test_id cv tvs pm sl m).1 = test_id
      ∧ (lookupT test_id (create_ab_test o test_id cv tvs pm sl m).2.active_tests).map
          ABTest.status = some TestStatus.PLANNING
      ∧ (create_ab_test o test_id cv tvs pm sl m).2.completed_tests = m.completed_tests)
    ∧ (∀ t : ABTest,
        1 / 100 < |t.control_variant.traffic_allocation
          + (t.test_variants.map TestVariant.traffic_allocation).sum - 1| →
        validate_test_configuration t = false) := by
  constructor
  · intro o tid cv tvs pm sl m
    refine ⟨rfl, ?_, rfl⟩
    simp [create_ab_test, insertT, lookupT]
  · intro t h
    simp only [validate_test_configuration]
    rw [if_pos h]

/-- An experiment whose allocations sum to 1.8, as stored by create. -/
def c4_invalid_test : ABTest :=
  { test_id := "bad", status := TestStatus.PLANNING, primary_metric := "conversion_rate",
    significance_level := 1 / 20, minimum_sample_size := 6400, minimum_duration_days := 7,
    maximum_duration_days := 30, control_variant := c4_bad_control,
    test_variants := [c4_bad_treatment], winner_variant_id := none,
    statistical_significance := false, confidence_interval := none, p_value := none,
    effect_size := none, started_at := none, ended_at := none }

/-- Witness: creation at a concrete input and rejection of the invalid
allocation by the start-time validator. -/
theorem create_stores_planning_unvalidated_witness :
    (create_ab_test trivOracle "w4" (freshVariant "c" (1 / 2)) [] "conversion_rate" (1 / 20)
      emptyManager).1 = "w4"
    ∧ validate_test_configuration c4_invalid_test = false :=
  ⟨(create_stores_planning_unvalidated.1 trivOracle "w4" (freshVariant "c" (1 / 2)) []
      "conversion_rate" (1 / 20) emptyManager).1,
    create_stores_planning_unvalidated.2 c4_invalid_test
      (by norm_num [c4_invalid_test, c4_bad_control, c4_bad_treatment, freshVariant]
          rw [abs_of_pos] <;> norm_num)⟩


/-- Unfolding of key removal over a cons cell. -/
theorem removeT_cons {α : Type} (k : String) (p : String × α) (rest : List (String × α)) :
    removeT k (p :: rest) = if p.1 = k then removeT k rest else p :: removeT k rest := by
  by_cases hp : p.1 = k
  · simp [removeT, List.filter_cons, hp]
  · simp [removeT, List.filter_cons, hp]

/-- Removing a key leaves lookups of other keys unchanged. -/
theorem lookupT_removeT_ne {α : Type} (l : List (String × α)) (k j : String) (h : k ≠ j) :
    lookupT j (removeT k l) = lookupT j l := by
  induction l with
  | nil => rfl
  | cons p rest ih =>
    rw [removeT_cons]
    by_cases hp : p.1 = k
    · have hj : ¬ p.1 = j := by rw [hp]; exact h
      rw [if_pos hp, ih, lookupT, if_neg hj]
    · rw [if_neg hp]
      simp only [lookupT]
      rw [ih]

/-- Removing a key erases its binding. -/
theorem lookupT_removeT_self {α : Type} (l : List (String × α)) (k : String) :
    lookupT k (removeT k l) = none := by
  induction l with
  | nil => rfl
  | cons p rest ih =>
    rw [removeT_cons]
    by_cases hp : p.1 = k
    · rw [if_pos hp]
      exact ih
    · rw [if_neg hp, lookupT, if_neg hp]
      exact ih

/-- Lookup of a freshly inserted key. -/
theorem lookupT_insertT_self {α : Type} (l : List (String × α)) (k : String) (v : α) :
    lookupT k (insertT l k v) = some v := by
  simp [insertT, lookupT]

/-- Insertion leaves lookups of other keys unchanged. -/
theorem lookupT_insertT_ne {α : Type} (l : List (String × α)) (k j : String) (v : α)
    (h : k ≠ j) : lookupT j (insertT l k v) = lookupT j l := by
  simp only [insertT, lookupT, h, if_false]
  exact lookupT_removeT_ne l k j h

/-- The registry invariant: no test id is bound in both the active and the
completed map. -/
def RegistryDisjoint (m : ABTestManager) : Prop :=
  ∀ k, lookupT k m.active_tests = none ∨ lookupT k m.completed_tests = none

/-- C9: the registry operations preserve the at-most-one-map invariant:
create inserts only into the active map (given a fresh generated id),
stop moves the test from the active to the completed map recording the
completion, and the status lookup resolves an id from whichever map holds
it. -/
theorem registry_operations_preserve_disjointness :
    (∀ o test_id cv tvs pm sl m, RegistryDisjoint m →
      lookupT test_id m.completed_tests = none →
      RegistryDisjoint (create_ab_test o test_id cv tvs pm sl m).2
      ∧ (create_ab_test o test_id cv tvs pm sl m).2.completed_tests = m.completed_tests)
    ∧ (∀ now m test_id, RegistryDisjoint m →
        RegistryDisjoint (stop_test now m test_id)
        ∧ ∀ t, lookupT test_id m.active_tests = some t →
            lookupT test_id (stop_test now m test_id).active_tests = none
            ∧ lookupT test_id (stop_test now m test_id).completed_tests
              = some { t with status := TestStatus.COMPLETED, ended_at := some now })
    ∧ (∀ m test_id t, lookupT test_id m.active_tests = some t →
        get_test_status_lookup m test_id = some t)
    ∧ (∀ m test_id t, RegistryDisjoint m → lookupT test_id m.completed_tests = some t →
        get_test_status_lookup m test_id = some t) := by
  refine ⟨?_, ?_, ?_, ?_⟩
  · intro o tid cv tvs pm sl m hm hc
    refine ⟨?_, rfl⟩
    intro k
    by_cases hk : tid = k
    · subst hk
      exact Or.inr hc
    · rcases hm k with h | h
      · exact Or.inl (by simp only [create_ab_test]; rw [lookupT_insertT_ne _ _ _ _ hk]; exact h)
      · exact Or.inr h
  · intro now m tid hm
    rcases hl : lookupT tid m.active_tests with _ | t
    · constructor
      · intro k
        simpa [stop_test, hl] using hm k
      · intro t ht
        exact absurd ht (by simp)
    · constructor
      · intro k
        by_cases hk : tid = k
        · subst hk
          exact Or.inl (by simp only [stop_test, hl]; exact lookupT_removeT_self _ _)
        · rcases hm k with h | h
          · refine Or.inl ?_
            simp only [stop_test, hl]
            rw [lookupT_removeT_ne _ _ _ hk]
            exact h
          · refine Or.inr ?_
            simp only [stop_test, hl]
            rw [lookupT_insertT_ne _ _ _ _ hk]
            exact h
      · intro t' ht
        injection ht with ht
        subst ht
        constructor
        · simp only [stop_test, hl]
          exact lookupT_removeT_self _ _
        · simp only [stop_test, hl]
          exact lookupT_insertT_self _ _ _
  · intro m tid t h
    simp [get_test_status_lookup, h]
  · intro m tid t hm h
    rcases hm tid with ha | hc
    · simp [get_test_status_lookup, ha, h]
    · rw [h] at hc
      exact absurd hc (by simp)

/-- A plain running experiment stored under id a9. -/
def c9_active_test : ABTest :=
  { test_id := "a9", status := TestStatus.RUNNING, primary_metric := "conversion_rate",
    significance_level := 1 / 20, minimum_sample_size := 1000, minimum_duration_days := 7,
    maximum_duration_days := 30, control_variant := freshVariant "c" (1 / 2),
    test_variants := [freshVariant "t1" (1 / 2)], winner_variant_id := none,
    statistical_significance := false, confidence_interval := none, p_value := none,
    effect_size := none, started_at := some 0, ended_at := none }

/-- A manager holding only the a9 experiment, with nothing completed. -/
def c9_manager : ABTestManager :=
  { active_tests := [("a9", c9_active_test)], completed_tests := [], learned_patterns := [] }

/-- Witness: stopping the a9 experiment removes it from the active map and
files the completed version under the same id in the completed map. -/
theorem registry_operations_preserve_disjointness_witness :
    lookupT "a9" (stop_test 5 c9_manager "a9").active_tests = none
    ∧ lookupT "a9" (stop_test 5 c9_manager "a9").completed_tests
      = some { c9_active_test with status := TestStatus.COMPLETED, ended_at := some 5 } :=
  (registry_operations_preserve_disjointness.2.1 5 c9_manager "a9"
      (fun _ => Or.inr rfl)).2 c9_active_test rfl

/-- A control arm breaking even at zero conversions over 1000 visitors. -/
def c7_sig_control : TestVariant :=
  { freshVariant "c" (1 / 2) with visitors := 1000 }

/-- A treatment arm with 150 conversions over 1000 visitors. -/
def c7_sig_treatment : TestVariant :=
  { freshVariant "t1" (1 / 2) with
    visitors := 1000, conversions := 150, conversion_rate := 3 / 20 }

/-- A running experiment that has been found highly significant with the
treatment as winner, whose control has conversion_rate 0. -/
def c7_sig_test : ABTest :=
  { test_id := "t7", status := TestStatus.RUNNING, primary_metric := "conversion_rate",
    significance_level := 1 / 20, minimum_sample_size := 100, minimum_duration_days := 7,
    maximum_duration_days := 30, control_variant := c7_sig_control,
    test_variants := [c7_sig_treatment], winner_variant_id := some "t1",
    statistical_significance := true, confidence_interval := none,
    p_value := some (1 / 1000), effect_size := some 0, started_at := some 0,
    ended_at := none }

/-- A manager holding the significant experiment with no learning yet. -/
def c7_manager : ABTestManager :=
  { active_tests := [("t7", c7_sig_test)], completed_tests := [], learned_patterns := [] }

/-- C7 counterexample: stopping the significant t7 experiment completes it
(statistical_significance is true and it lands in the completed map), yet
zero learning records are appended: the improvement computation of
_learn_from_test divides by the control conversion_rate 0, the
ZeroDivisionError is swallowed by its except handler, and the append never
runs — refuting the only-if-direction of the claimed equivalence. -/
theorem significant_completion_without_learning_record :
    c7_sig_test.statistical_significance = true
    ∧ lookupT "t7" (stop_test 40 c7_manager "t7").completed_tests
      = some { c7_sig_test with status := TestStatus.COMPLETED, ended_at := some 40 }
    ∧ (stop_test 40 c7_manager "t7").learned_patterns = [] := by
  refine ⟨rfl, ?_, ?_⟩ <;>
    simp [stop_test, c7_manager, c7_sig_test, learn_from_test, find_winner_variant,
      c7_sig_control, c7_sig_treatment, freshVariant, lookupT, insertT, removeT]

/-- The learning extraction succeeds whenever the experiment is
significant, a winner resolves, the p-value is set, and, for the
conversion-rate metric, the control conversion rate is nonzero. -/
theorem learn_from_test_some (now : ℤ) (u : ABTest) (w : TestVariant) (pv : ℚ)
    (hsig : u.statistical_significance = true)
    (hw : find_winner_variant u = some w)
    (hpv : u.p_value = some pv)
    (hnz : u.primary_metric = "conversion_rate" → u.control_variant.conversion_rate ≠ 0) :
    (learn_from_test now u).isSome = true := by
  unfold learn_from_test
  rw [hsig, hw]
  by_cases hpm : u.primary_metric = "conversion_rate"
  · simp [hpm, hnz hpm, hpv]
  · simp [hpm, hpv]

/-- C7 (amended): a learning record is appended only on a significant
completion — stopping a non-significant experiment appends nothing — and
a significant completion does append exactly one record provided the
winner resolves, the p-value is set, and, when the primary metric is
conversion_rate, the control conversion rate is nonzero; when one of these
provisos fails the extraction aborts inside its exception handler and
appends nothing. -/
theorem learning_record_iff_guards :
    (∀ now m test_id t, lookupT test_id m.active_tests = some t →
      t.statistical_significance = false →
      (stop_test now m test_id).learned_patterns = m.learned_patterns)
    ∧ (∀ now m test_id t w pv, lookupT test_id m.active_tests = some t →
        t.statistical_significance = true →
        find_winner_variant t = some w →
        t.p_value = some pv →
        (t.primary_metric = "conversion_rate" → t.control_variant.conversion_rate ≠ 0) →
        (stop_test now m test_id).learned_patterns.length
          = m.learned_patterns.length + 1) := by
  constructor
  · intro now m tid t hl hsig
    simp [stop_test, hl, learn_from_test, hsig]
  · intro now m tid t w pv hl hsig hw hpv hnz
    have hs : (learn_from_test now
        { t with status := TestStatus.COMPLETED, ended_at := some now }).isSome = true := by
      refine learn_from_test_some now _ w pv hsig ?_ hpv hnz
      rw [show find_winner_variant
          { t with status := TestStatus.COMPLETED, ended_at := some now }
        = find_winner_variant t from rfl]
      exact hw
    rcases ho : (learn_from_test now
        { t with status := TestStatus.COMPLETED, ended_at := some now }) with _ | r
    · rw [ho] at hs
      simp at hs
    · simp [stop_test, hl, ho]

/-- A control arm with a healthy nonzero conversion rate. -/
def c7_good_control : TestVariant :=
  { freshVariant "c" (1 / 2) with
    visitors := 1000, conversions := 100, conversion_rate := 1 / 10 }

/-- A significant winner-resolved experiment with nonzero control rate. -/
def c7_good_test : ABTest :=
  { c7_sig_test with test_id := "t7w", control_variant := c7_good_control }

/-- A manager holding the well-behaved significant experiment. -/
def c7_good_manager : ABTestManager :=
  { active_tests := [("t7w", c7_good_test)], completed_tests := [], learned_patterns := [] }

/-- Witness: stopping the well-behaved significant experiment appends
exactly one learning record. -/
theorem learning_record_iff_guards_witness :
    (stop_test 9 c7_good_manager "t7w").learned_patterns.length
      = c7_good_manager.learned_patterns.length + 1 :=
  learning_record_iff_guards.2 9 c7_good_manager "t7w" c7_good_test c7_sig_treatment
    (1 / 1000) rfl rfl
    (by simp [find_winner_variant, c7_good_test, c7_sig_test, c7_good_control,
      c7_sig_treatment, freshVariant])
    rfl
    (fun _ => by norm_num [c7_good_test, c7_sig_test, c7_good_control, freshVariant])
